import Mathlib

/-!
# Olive Contractors cost estimator — verification of the pricing engine

Shallow embedding of `src/app.py` (the Streamlit construction cost
estimator).  Monetary amounts, multipliers and percentages are modelled
as rationals (`ℚ`); the source performs the same linear sequence of
multiplications, sums, `max`es and percentage additions on Python
floats.  Identifiers are modelled as `ℕ` and string-valued columns as
`String`.
-/

namespace Olive

/-- A row of `PROJECT_TYPES.csv` as used by `app.py`
(`project_type_id`, `name`, `description`, `base_cost_per_sqft_low`,
`base_cost_per_sqft_high`, `min_project_cost`). -/
structure ProjectType where
  project_type_id : ℕ
  name : String
  description : String
  base_cost_per_sqft_low : ℚ
  base_cost_per_sqft_high : ℚ
  min_project_cost : ℚ
  deriving DecidableEq, Repr

/-- A row of `FINISH_LEVELS.csv` (`finish_level_id`, `label`,
`description`, `multiplier`). -/
structure FinishLevel where
  finish_level_id : ℕ
  label : String
  description : String
  multiplier : ℚ
  deriving DecidableEq, Repr

/-- A row of `STRUCTURAL_COMPLEXITY.csv` (`complexity_id`, `label`,
`description`, `multiplier`). -/
structure ComplexityLevel where
  complexity_id : ℕ
  label : String
  description : String
  multiplier : ℚ
  deriving DecidableEq, Repr

/-- A row of `ADD_ONS.csv` (`addon_id`, `project_type_id`, `name`,
`notes`, `pricing_type`, `low`, `high`). -/
structure AddOn where
  addon_id : ℕ
  project_type_id : ℕ
  name : String
  notes : String
  pricing_type : String
  low : ℚ
  high : ℚ
  deriving DecidableEq, Repr

/-- One entry of the `addon_details` list built in the add-on loop of
`app.py` (lines 290-294): the add-on's name with its computed low/high
contribution. -/
structure AddonDetail where
  name : String
  low : ℚ
  high : ℚ
  deriving DecidableEq, Repr

/-- The per-add-on low/high contribution, from the body of the loop at
`app.py` lines 276-287: `flat` uses `(low, high)` unchanged; `per_sqft`
and `per_unit` multiply by `addon_sqft_inputs.get(addon_id, 1)`; any
other `pricing_type` falls through to the `else` branch which also uses
`(low, high)` unchanged.  The quantity dictionary is an association
list looked up by `addon_id`. -/
def addonContribution (addon_sqft_inputs : List (ℕ × ℚ)) (addon : AddOn) : ℚ × ℚ :=
  if addon.pricing_type = "flat" then
    (addon.low, addon.high)
  else if addon.pricing_type = "per_sqft" ∨ addon.pricing_type = "per_unit" then
    let qty := (addon_sqft_inputs.lookup addon.addon_id).getD 1
    (addon.low * qty, addon.high * qty)
  else
    (addon.low, addon.high)

/-- One iteration of the add-on loop (`app.py` lines 276-294): add the
contribution into the running `addons_total_low` / `addons_total_high`
and append the breakdown entry to `addon_details`. -/
def addonStep (addon_sqft_inputs : List (ℕ × ℚ))
    (acc : ℚ × ℚ × List AddonDetail) (addon : AddOn) : ℚ × ℚ × List AddonDetail :=
  let c := addonContribution addon_sqft_inputs addon
  (acc.1 + c.1, acc.2.1 + c.2, acc.2.2 ++ [⟨addon.name, c.1, c.2⟩])

/-- The whole add-on loop: fold `addonStep` over `selected_addons`
starting from `addons_total_low = 0`, `addons_total_high = 0`,
`addon_details = []` (`app.py` lines 272-294). -/
def addonTotals (addon_sqft_inputs : List (ℕ × ℚ)) (selected_addons : List AddOn) :
    ℚ × ℚ × List AddonDetail :=
  selected_addons.foldl (addonStep addon_sqft_inputs) (0, 0, [])

/-- Every intermediate low/high amount computed in the results block of
`app.py` (lines 252-312). -/
structure EstimateResult where
  base_cost_low : ℚ
  base_cost_high : ℚ
  after_finish_low : ℚ
  after_finish_high : ℚ
  after_complexity_low : ℚ
  after_complexity_high : ℚ
  addons_total_low : ℚ
  addons_total_high : ℚ
  addon_details : List AddonDetail
  subtotal_low : ℚ
  subtotal_high : ℚ
  contingency_low : ℚ
  contingency_high : ℚ
  after_contingency_low : ℚ
  after_contingency_high : ℚ
  markup_low : ℚ
  markup_high : ℚ
  final_total_low : ℚ
  final_total_high : ℚ
  deriving DecidableEq, Repr, Inhabited

/-- The computation block of `app.py` lines 252-312, over the already
resolved rows (`project_info`, `finish_info`, `complexity_info`), the
selected add-on rows, the quantity inputs, and the two configured
percentages.  Each line mirrors the corresponding assignment in the
source. -/
def computeEstimate (square_footage : ℚ) (project_info : ProjectType)
    (finish_info : FinishLevel) (complexity_info : ComplexityLevel)
    (selected_addons : List AddOn) (addon_sqft_inputs : List (ℕ × ℚ))
    (contingency_percent markup_percent : ℚ) : EstimateResult :=
  let base_cost_low :=
    max (square_footage * project_info.base_cost_per_sqft_low) project_info.min_project_cost
  let base_cost_high :=
    max (square_footage * project_info.base_cost_per_sqft_high) project_info.min_project_cost
  let finish_multiplier := finish_info.multiplier
  let after_finish_low := base_cost_low * finish_multiplier
  let after_finish_high := base_cost_high * finish_multiplier
  let complexity_multiplier := complexity_info.multiplier
  let after_complexity_low := after_finish_low * complexity_multiplier
  let after_complexity_high := after_finish_high * complexity_multiplier
  let totals := addonTotals addon_sqft_inputs selected_addons
  let addons_total_low := totals.1
  let addons_total_high := totals.2.1
  let addon_details := totals.2.2
  let subtotal_low := after_complexity_low + addons_total_low
  let subtotal_high := after_complexity_high + addons_total_high
  let contingency_low := subtotal_low * (contingency_percent / 100)
  let contingency_high := subtotal_high * (contingency_percent / 100)
  let after_contingency_low := subtotal_low + contingency_low
  let after_contingency_high := subtotal_high + contingency_high
  let markup_low := after_contingency_low * (markup_percent / 100)
  let markup_high := after_contingency_high * (markup_percent / 100)
  let final_total_low := after_contingency_low + markup_low
  let final_total_high := after_contingency_high + markup_high
  { base_cost_low := base_cost_low
    base_cost_high := base_cost_high
    after_finish_low := after_finish_low
    after_finish_high := after_finish_high
    after_complexity_low := after_complexity_low
    after_complexity_high := after_complexity_high
    addons_total_low := addons_total_low
    addons_total_high := addons_total_high
    addon_details := addon_details
    subtotal_low := subtotal_low
    subtotal_high := subtotal_high
    contingency_low := contingency_low
    contingency_high := contingency_high
    after_contingency_low := after_contingency_low
    after_contingency_high := after_contingency_high
    markup_low := markup_low
    markup_high := markup_high
    final_total_low := final_total_low
    final_total_high := final_total_high }

/-- The four reference tables as loaded into the dataframes
`project_types_df`, `finish_levels_df`, `complexity_df`, `add_ons_df`. -/
structure Store where
  project_types : List ProjectType
  finish_levels : List FinishLevel
  structural_complexity : List ComplexityLevel
  add_ons : List AddOn
  deriving Repr

/-- The user's form state as collected by the widgets in `app.py`
lines 146-232: the three chosen ids, the square footage, the checked
add-on rows (`selected_addons`) and the quantity inputs
(`addon_sqft_inputs`). -/
structure Selection where
  project_type_id : ℕ
  square_footage : ℚ
  finish_level_id : ℕ
  complexity_id : ℕ
  selected_addons : List AddOn
  addon_sqft_inputs : List (ℕ × ℚ)
  deriving Repr

/-- Row resolution as done by the boolean-mask-plus-`iloc[0]` pattern
(`app.py` lines 155, 182, 196): the first row whose id column matches,
or failure when no row matches. -/
def findProjectType (s : Store) (id : ℕ) : Option ProjectType :=
  s.project_types.find? (fun pt => pt.project_type_id == id)

/-- First `finish_levels_df` row with the given `finish_level_id`. -/
def findFinishLevel (s : Store) (id : ℕ) : Option FinishLevel :=
  s.finish_levels.find? (fun fl => fl.finish_level_id == id)

/-- First `complexity_df` row with the given `complexity_id`. -/
def findComplexityLevel (s : Store) (id : ℕ) : Option ComplexityLevel :=
  s.structural_complexity.find? (fun cl => cl.complexity_id == id)

/-- Resolve the selection's three ids against the store and run the
computation block; `none` when a row lookup fails (in the source an
`iloc[0]` on an empty frame raises). -/
def runEstimate (s : Store) (sel : Selection)
    (contingency_percent markup_percent : ℚ) : Option EstimateResult :=
  match findProjectType s sel.project_type_id,
        findFinishLevel s sel.finish_level_id,
        findComplexityLevel s sel.complexity_id with
  | some pt, some fl, some cl =>
      some (computeEstimate sel.square_footage pt fl cl
        sel.selected_addons sel.addon_sqft_inputs contingency_percent markup_percent)
  | _, _, _ => none

/-- The data invariants on the reference tables assumed by the spec:
`base_cost_per_sqft_low ≤ base_cost_per_sqft_high` and
`min_project_cost ≥ 0` per project type, positive multipliers, and
`low ≤ high` per add-on. -/
def storeWF (s : Store) : Prop :=
  (∀ pt ∈ s.project_types,
      pt.base_cost_per_sqft_low ≤ pt.base_cost_per_sqft_high ∧ 0 ≤ pt.min_project_cost) ∧
  (∀ fl ∈ s.finish_levels, 0 < fl.multiplier) ∧
  (∀ cl ∈ s.structural_complexity, 0 < cl.multiplier) ∧
  (∀ a ∈ s.add_ons, a.low ≤ a.high)

instance (s : Store) : Decidable (storeWF s) := by
  unfold storeWF; infer_instance

/-- A valid selection: positive square footage, all three ids present
in their tables, every chosen add-on a row of the add-on table
belonging to the selected project type, and every supplied quantity
at least 1. -/
def validSelection (s : Store) (sel : Selection) : Prop :=
  1 ≤ sel.square_footage ∧
  (findProjectType s sel.project_type_id).isSome ∧
  (findFinishLevel s sel.finish_level_id).isSome ∧
  (findComplexityLevel s sel.complexity_id).isSome ∧
  (∀ a ∈ sel.selected_addons, a ∈ s.add_ons ∧ a.project_type_id = sel.project_type_id) ∧
  (∀ p ∈ sel.addon_sqft_inputs, (1 : ℚ) ≤ p.2)

instance (s : Store) (sel : Selection) : Decidable (validSelection s sel) := by
  unfold validSelection; infer_instance

/-- What the form widgets can actually produce (`app.py` lines
146-232): the project-type id comes from `project_type_options`
(built from the table itself), `square_footage` comes from a
`number_input` with `min_value=1`, the finish and complexity ids come
from selectboxes over their tables, `selected_addons` collects checked
rows of `relevant_addons` (the add-on table filtered to the selected
project type), and each quantity comes from a `number_input` with
`min_value=1`. -/
def uiReachable (s : Store) (sel : Selection) : Prop :=
  (∃ pt ∈ s.project_types, pt.project_type_id = sel.project_type_id) ∧
  1 ≤ sel.square_footage ∧
  (∃ fl ∈ s.finish_levels, fl.finish_level_id = sel.finish_level_id) ∧
  (∃ cl ∈ s.structural_complexity, cl.complexity_id = sel.complexity_id) ∧
  (∀ a ∈ sel.selected_addons,
      a ∈ s.add_ons.filter (fun a => a.project_type_id == sel.project_type_id)) ∧
  (∀ p ∈ sel.addon_sqft_inputs, (1 : ℚ) ≤ p.2)

instance (s : Store) (sel : Selection) : Decidable (uiReachable s sel) := by
  unfold uiReachable; infer_instance

/-- The five parse attempts of `load_data` (`app.py` lines 106-120):
each field is `some rows` when the CSV file is present and well-formed
and `none` when reading it raises.  Config rows are `(Key, Value)`
string pairs. -/
structure DataFiles where
  project_types : Option (List ProjectType)
  finish_levels : Option (List FinishLevel)
  structural_complexity : Option (List ComplexityLevel)
  add_ons : Option (List AddOn)
  config : Option (List (String × String))

/-- `dict(zip(config['Key'], config['Value']))` — a Python dict built
from the rows in order, so a later duplicate key overwrites an earlier
one: look up the last matching row. -/
def configDict (rows : List (String × String)) : String → Option String :=
  fun k => rows.reverse.lookup k

/-- `load_data` (`app.py` lines 106-120): read the five CSV files
inside one `try`; any failure takes the `except` path (an error message
plus `None` sentinels, modelled as `none`); on success return the four
tables and the config dictionary.  No configuration key is inspected
here. -/
def load_data (fs : DataFiles) :
    Option (List ProjectType × List FinishLevel × List ComplexityLevel ×
      List AddOn × (String → Option String)) :=
  match fs.project_types, fs.finish_levels, fs.structural_complexity,
        fs.add_ons, fs.config with
  | some pt, some fl, some sc, some ao, some cfg =>
      some (pt, fl, sc, ao, configDict cfg)
  | _, _, _, _, _ => none

/-! ## Helper lemmas about the add-on loop -/

/-- Folding `addonStep` over a list of add-ons adds the sums of the
individual contributions to the accumulated totals and appends one
breakdown entry per add-on, in order. -/
lemma foldl_addonStep (inputs : List (ℕ × ℚ)) (sel : List AddOn)
    (tl th : ℚ) (ds : List AddonDetail) :
    sel.foldl (addonStep inputs) (tl, th, ds) =
      (tl + (sel.map (fun a => (addonContribution inputs a).1)).sum,
       th + (sel.map (fun a => (addonContribution inputs a).2)).sum,
       ds ++ sel.map (fun a =>
         ⟨a.name, (addonContribution inputs a).1, (addonContribution inputs a).2⟩)) := by
  induction sel generalizing tl th ds with
  | nil => simp
  | cons a rest ih =>
      simp [addonStep, ih, add_assoc]

/-- The add-on loop in closed form: the two totals are the sums of the
per-add-on contributions and the breakdown is their list. -/
lemma addonTotals_eq (inputs : List (ℕ × ℚ)) (sel : List AddOn) :
    addonTotals inputs sel =
      ((sel.map (fun a => (addonContribution inputs a).1)).sum,
       (sel.map (fun a => (addonContribution inputs a).2)).sum,
       sel.map (fun a =>
         ⟨a.name, (addonContribution inputs a).1, (addonContribution inputs a).2⟩)) := by
  simp [addonTotals, foldl_addonStep]

/-- A successful association-list lookup returns a pair of the list. -/
lemma mem_of_lookup_eq_some {l : List (ℕ × ℚ)} {k : ℕ} {v : ℚ}
    (h : l.lookup k = some v) : (k, v) ∈ l := by
  induction l with
  | nil => simp at h
  | cons p rest ih =>
      rcases p with ⟨k', v'⟩
      rw [List.lookup_cons] at h
      split at h
      next hk =>
        obtain rfl : k = k' := by simpa using hk
        obtain rfl : v' = v := by simpa using h
        exact List.mem_cons_self _ _
      next hk => exact List.mem_cons_of_mem _ (ih h)

/-- When every quantity in the dictionary is non-negative, so is the
looked-up quantity with its default of 1. -/
lemma getD_lookup_nonneg {inputs : List (ℕ × ℚ)}
    (hq : ∀ p ∈ inputs, (0 : ℚ) ≤ p.2) (k : ℕ) :
    0 ≤ (inputs.lookup k).getD 1 := by
  cases h : inputs.lookup k with
  | none => norm_num
  | some v => simpa using hq _ (mem_of_lookup_eq_some h)

/-- With `addon.low ≤ addon.high` and non-negative quantities, each
add-on's low contribution is at most its high contribution. -/
lemma addonContribution_le (inputs : List (ℕ × ℚ)) (a : AddOn)
    (hlh : a.low ≤ a.high) (hq : ∀ p ∈ inputs, (0 : ℚ) ≤ p.2) :
    (addonContribution inputs a).1 ≤ (addonContribution inputs a).2 := by
  unfold addonContribution
  split
  · exact hlh
  · split
    · exact mul_le_mul_of_nonneg_right hlh (getD_lookup_nonneg hq _)
    · exact hlh

/-! ## Theorems about the pricing computation -/

/-- Claim C3: the base cost is the square footage times the per-sqft
rate, floored at `min_project_cost` independently in each branch, so
each branch's base cost is at least `min_project_cost` no matter how
small the square footage is. -/
theorem base_cost_is_floored_max (sqft : ℚ) (pt : ProjectType) (fl : FinishLevel)
    (cl : ComplexityLevel) (sel : List AddOn) (inputs : List (ℕ × ℚ)) (cp mp : ℚ) :
    (computeEstimate sqft pt fl cl sel inputs cp mp).base_cost_low =
      max (sqft * pt.base_cost_per_sqft_low) pt.min_project_cost ∧
    (computeEstimate sqft pt fl cl sel inputs cp mp).base_cost_high =
      max (sqft * pt.base_cost_per_sqft_high) pt.min_project_cost ∧
    pt.min_project_cost ≤ (computeEstimate sqft pt fl cl sel inputs cp mp).base_cost_low ∧
    pt.min_project_cost ≤ (computeEstimate sqft pt fl cl sel inputs cp mp).base_cost_high :=
  ⟨rfl, rfl, le_max_right _ _, le_max_right _ _⟩

/-- Claim C4: with zero add-ons both add-on totals are 0, the
contingency step multiplies the subtotal by `1 + cp/100`, the markup
step multiplies that by `1 + mp/100`, and the final total equals the
subtotal times both factors, in each branch. -/
theorem zero_addons_two_step_compounding (sqft : ℚ) (pt : ProjectType)
    (fl : FinishLevel) (cl : ComplexityLevel) (inputs : List (ℕ × ℚ)) (cp mp : ℚ) :
    (computeEstimate sqft pt fl cl [] inputs cp mp).addons_total_low = 0 ∧
    (computeEstimate sqft pt fl cl [] inputs cp mp).addons_total_high = 0 ∧
    (computeEstimate sqft pt fl cl [] inputs cp mp).after_contingency_low =
      (computeEstimate sqft pt fl cl [] inputs cp mp).subtotal_low * (1 + cp / 100) ∧
    (computeEstimate sqft pt fl cl [] inputs cp mp).final_total_low =
      (computeEstimate sqft pt fl cl [] inputs cp mp).after_contingency_low * (1 + mp / 100) ∧
    (computeEstimate sqft pt fl cl [] inputs cp mp).final_total_low =
      (computeEstimate sqft pt fl cl [] inputs cp mp).subtotal_low *
        (1 + cp / 100) * (1 + mp / 100) ∧
    (computeEstimate sqft pt fl cl [] inputs cp mp).after_contingency_high =
      (computeEstimate sqft pt fl cl [] inputs cp mp).subtotal_high * (1 + cp / 100) ∧
    (computeEstimate sqft pt fl cl [] inputs cp mp).final_total_high =
      (computeEstimate sqft pt fl cl [] inputs cp mp).after_contingency_high * (1 + mp / 100) ∧
    (computeEstimate sqft pt fl cl [] inputs cp mp).final_total_high =
      (computeEstimate sqft pt fl cl [] inputs cp mp).subtotal_high *
        (1 + cp / 100) * (1 + mp / 100) := by
  refine ⟨rfl, rfl, ?_, ?_, ?_, ?_, ?_, ?_⟩ <;>
    · simp only [computeEstimate, addonTotals, List.foldl_nil]
      ring

/-- Claim C6: an add-on whose `pricing_type` is none of `flat`,
`per_sqft`, `per_unit` falls into the `else` branch of the loop and
contributes `(low, high)` unchanged, exactly like `flat`, with the
quantity ignored. -/
theorem unrecognized_pricing_treated_as_flat (inputs : List (ℕ × ℚ)) (a : AddOn)
    (h1 : a.pricing_type ≠ "flat") (h2 : a.pricing_type ≠ "per_sqft")
    (h3 : a.pricing_type ≠ "per_unit") :
    addonContribution inputs a = (a.low, a.high) := by
  simp [addonContribution, h1, h2, h3]

/-- Witness for the unrecognized-pricing claim at a concrete add-on
with pricing type `bundle` and a quantity entry present. -/
theorem unrecognized_pricing_treated_as_flat_witness :
    addonContribution [(7, 4)] ⟨7, 1, "Pergola", "Cedar", "bundle", 100, 200⟩ =
      (100, 200) :=
  unrecognized_pricing_treated_as_flat [(7, 4)] ⟨7, 1, "Pergola", "Cedar", "bundle", 100, 200⟩
    (by decide) (by decide) (by decide)

/-- Claim C9: a `per_sqft`/`per_unit` add-on whose id is absent from
the quantity dictionary defaults to quantity 1 and contributes
`(low, high)`; the computation does not fail. -/
theorem missing_quantity_defaults_to_one (inputs : List (ℕ × ℚ)) (a : AddOn)
    (hp : a.pricing_type = "per_sqft" ∨ a.pricing_type = "per_unit")
    (hmiss : inputs.lookup a.addon_id = none) :
    addonContribution inputs a = (a.low, a.high) := by
  rcases hp with h | h <;> simp [addonContribution, h, hmiss]

/-- Witness for the default-quantity claim at a concrete `per_unit`
add-on and an empty quantity dictionary. -/
theorem missing_quantity_defaults_to_one_witness :
    addonContribution [] ⟨3, 1, "Skylight", "Velux", "per_unit", 1500, 2500⟩ =
      (1500, 2500) :=
  missing_quantity_defaults_to_one [] ⟨3, 1, "Skylight", "Velux", "per_unit", 1500, 2500⟩
    (Or.inr rfl) rfl

/-- A concrete `per_sqft` add-on row used to instantiate theorems. -/
def exTileAddon : AddOn :=
  ⟨2, 1, "Tile Flooring", "Ceramic tile", "per_sqft", 10, 20⟩

/-- A concrete `flat` add-on row used to instantiate theorems. -/
def exIslandAddon : AddOn :=
  ⟨1, 1, "Custom Island", "Quartz countertop", "flat", 3000, 6000⟩

/-- A concrete project-type row (the worked example of the spec:
rates 100/150 per sqft, minimum 5000). -/
def exPT : ProjectType :=
  ⟨1, "Kitchen Renovation", "Full kitchen remodel", 100, 150, 5000⟩

/-- A concrete finish-level row with multiplier 2. -/
def exFL : FinishLevel := ⟨1, "Premium", "High-end finishes", 2⟩

/-- A concrete complexity row with multiplier 1. -/
def exCL : ComplexityLevel := ⟨1, "Minor", "Cosmetic changes only", 1⟩

/-- Claim C7: a `per_sqft`/`per_unit` add-on's contribution is linear
in its quantity — with quantity `q` it is the quantity-1 contribution
scaled by `q` — and changing that quantity leaves the contribution of
every add-on with a different id unchanged. -/
theorem per_unit_quantity_linear (a : AddOn) (rest : List (ℕ × ℚ)) (q : ℚ)
    (hp : a.pricing_type = "per_sqft" ∨ a.pricing_type = "per_unit") :
    addonContribution ((a.addon_id, q) :: rest) a =
      ((addonContribution ((a.addon_id, 1) :: rest) a).1 * q,
       (addonContribution ((a.addon_id, 1) :: rest) a).2 * q) ∧
    (∀ (b : AddOn) (q' : ℚ), b.addon_id ≠ a.addon_id →
      addonContribution ((a.addon_id, q) :: rest) b =
        addonContribution ((a.addon_id, q') :: rest) b) := by
  constructor
  · rcases hp with h | h <;> simp [addonContribution, h]
  · intro b q' hne
    have hb : (b.addon_id == a.addon_id) = false := by simpa using hne
    simp [addonContribution, List.lookup_cons, hb]

/-- Witness for the quantity-linearity claim: the tile add-on at
quantity 3, and the flat island add-on unaffected by the tile
quantity. -/
theorem per_unit_quantity_linear_witness :
    addonContribution [(2, (3 : ℚ))] exTileAddon =
      ((addonContribution [(2, (1 : ℚ))] exTileAddon).1 * 3,
       (addonContribution [(2, (1 : ℚ))] exTileAddon).2 * 3) ∧
    addonContribution [(2, (3 : ℚ))] exIslandAddon =
      addonContribution [(2, (5 : ℚ))] exIslandAddon :=
  ⟨(per_unit_quantity_linear exTileAddon [] 3 (Or.inl rfl)).1,
   (per_unit_quantity_linear exTileAddon [] 3 (Or.inl rfl)).2 exIslandAddon 5 (by decide)⟩

/-- Claim C8: a `flat` add-on's contribution ignores the quantity
dictionary entirely, and two computations whose quantity dictionaries
agree away from that add-on's id (every selected add-on sharing that id
being flat) produce identical estimate results. -/
theorem flat_addon_quantity_invariant (a : AddOn) (ha : a.pricing_type = "flat") :
    (∀ inputs : List (ℕ × ℚ), addonContribution inputs a = (a.low, a.high)) ∧
    (∀ (sqft : ℚ) (pt : ProjectType) (fl : FinishLevel) (cl : ComplexityLevel)
        (sel : List AddOn) (m₁ m₂ : List (ℕ × ℚ)) (cp mp : ℚ),
      (∀ id : ℕ, id ≠ a.addon_id → m₁.lookup id = m₂.lookup id) →
      (∀ b ∈ sel, b.addon_id = a.addon_id → b.pricing_type = "flat") →
      computeEstimate sqft pt fl cl sel m₁ cp mp =
        computeEstimate sqft pt fl cl sel m₂ cp mp) := by
  constructor
  · intro inputs
    simp [addonContribution, ha]
  · intro sqft pt fl cl sel m₁ m₂ cp mp hm hflat
    have hcontrib : ∀ b ∈ sel, addonContribution m₁ b = addonContribution m₂ b := by
      intro b hb
      by_cases hid : b.addon_id = a.addon_id
      · simp [addonContribution, hflat b hb hid]
      · unfold addonContribution
        rw [hm b.addon_id hid]
    have h1 : sel.map (fun b => (addonContribution m₁ b).1) =
        sel.map (fun b => (addonContribution m₂ b).1) :=
      List.map_congr_left fun b hb => by rw [hcontrib b hb]
    have h2 : sel.map (fun b => (addonContribution m₁ b).2) =
        sel.map (fun b => (addonContribution m₂ b).2) :=
      List.map_congr_left fun b hb => by rw [hcontrib b hb]
    have h3 : sel.map (fun b =>
          (⟨b.name, (addonContribution m₁ b).1, (addonContribution m₁ b).2⟩ : AddonDetail)) =
        sel.map (fun b =>
          (⟨b.name, (addonContribution m₂ b).1, (addonContribution m₂ b).2⟩ : AddonDetail)) :=
      List.map_congr_left fun b hb => by rw [hcontrib b hb]
    have htot : addonTotals m₁ sel = addonTotals m₂ sel := by
      rw [addonTotals_eq, addonTotals_eq, h1, h2, h3]
    simp only [computeEstimate, htot]

/-- Witness for the flat-invariance claim: a bogus quantity of 99 for
the island add-on changes neither its contribution nor the whole
estimate. -/
theorem flat_addon_quantity_invariant_witness :
    addonContribution [(1, (99 : ℚ))] exIslandAddon = (3000, 6000) ∧
    computeEstimate 40 exPT exFL exCL [exIslandAddon] [(1, (99 : ℚ))] 10 15 =
      computeEstimate 40 exPT exFL exCL [exIslandAddon] [] 10 15 := by
  refine ⟨(flat_addon_quantity_invariant exIslandAddon rfl).1 [(1, 99)],
    (flat_addon_quantity_invariant exIslandAddon rfl).2 40 exPT exFL exCL
      [exIslandAddon] [(1, 99)] [] 10 15 ?_ ?_⟩
  · intro id hid
    have : (id == 1) = false := by simpa using hid
    simp [List.lookup_cons, this]
  · intro b hb _
    have : b = exIslandAddon := by simpa using hb
    rw [this]
    rfl

/-- Claim C10: after the loop, `addons_total_low`/`addons_total_high`
equal the sums of the `low`/`high` fields of the breakdown entries, and
the breakdown has exactly one entry per selected add-on, in selection
order. -/
theorem addon_breakdown_consistent (sqft : ℚ) (pt : ProjectType) (fl : FinishLevel)
    (cl : ComplexityLevel) (sel : List AddOn) (inputs : List (ℕ × ℚ)) (cp mp : ℚ) :
    (computeEstimate sqft pt fl cl sel inputs cp mp).addons_total_low =
      ((computeEstimate sqft pt fl cl sel inputs cp mp).addon_details.map
        AddonDetail.low).sum ∧
    (computeEstimate sqft pt fl cl sel inputs cp mp).addons_total_high =
      ((computeEstimate sqft pt fl cl sel inputs cp mp).addon_details.map
        AddonDetail.high).sum ∧
    (computeEstimate sqft pt fl cl sel inputs cp mp).addon_details =
      sel.map (fun a =>
        ⟨a.name, (addonContribution inputs a).1, (addonContribution inputs a).2⟩) := by
  refine ⟨?_, ?_, ?_⟩ <;>
    simp only [computeEstimate, addonTotals_eq] <;>
    simp [List.map_map, Function.comp_def]

/-- The core monotonicity fact: on resolved rows, with
`base_cost_per_sqft_low ≤ base_cost_per_sqft_high`, non-negative
square footage, multipliers, quantities and percentages, and
`low ≤ high` for every selected add-on, the final low total is at most
the final high total. -/
lemma computeEstimate_low_le_high (sqft : ℚ) (pt : ProjectType) (fl : FinishLevel)
    (cl : ComplexityLevel) (sel : List AddOn) (inputs : List (ℕ × ℚ)) (cp mp : ℚ)
    (hsq : 0 ≤ sqft) (hbc : pt.base_cost_per_sqft_low ≤ pt.base_cost_per_sqft_high)
    (hfl : 0 ≤ fl.multiplier) (hcl : 0 ≤ cl.multiplier)
    (hsel : ∀ a ∈ sel, a.low ≤ a.high)
    (hq : ∀ p ∈ inputs, (0 : ℚ) ≤ p.2)
    (hcp : 0 ≤ cp) (hmp : 0 ≤ mp) :
    (computeEstimate sqft pt fl cl sel inputs cp mp).final_total_low ≤
      (computeEstimate sqft pt fl cl sel inputs cp mp).final_total_high := by
  have hbase : max (sqft * pt.base_cost_per_sqft_low) pt.min_project_cost ≤
      max (sqft * pt.base_cost_per_sqft_high) pt.min_project_cost :=
    max_le_max (mul_le_mul_of_nonneg_left hbc hsq) le_rfl
  have haddons : (addonTotals inputs sel).1 ≤ (addonTotals inputs sel).2.1 := by
    rw [addonTotals_eq]
    exact List.sum_le_sum fun a ha => addonContribution_le inputs a (hsel a ha) hq
  have hsub : max (sqft * pt.base_cost_per_sqft_low) pt.min_project_cost *
        fl.multiplier * cl.multiplier + (addonTotals inputs sel).1 ≤
      max (sqft * pt.base_cost_per_sqft_high) pt.min_project_cost *
        fl.multiplier * cl.multiplier + (addonTotals inputs sel).2.1 :=
    add_le_add (mul_le_mul_of_nonneg_right
      (mul_le_mul_of_nonneg_right hbase hfl) hcl) haddons
  have hcp100 : (0 : ℚ) ≤ cp / 100 := div_nonneg hcp (by norm_num)
  have hmp100 : (0 : ℚ) ≤ mp / 100 := div_nonneg hmp (by norm_num)
  have hac := add_le_add hsub (mul_le_mul_of_nonneg_right hsub hcp100)
  have hfin := add_le_add hac (mul_le_mul_of_nonneg_right hac hmp100)
  simp only [computeEstimate]
  exact hfin

/-- Claim C1: for a well-formed store and a valid selection, with
non-negative contingency and markup percentages, any estimate produced
satisfies `final_total_low ≤ final_total_high`. -/
theorem valid_selection_final_low_le_high (s : Store) (sel : Selection)
    (cp mp : ℚ) (r : EstimateResult) (hwf : storeWF s) (hv : validSelection s sel)
    (hcp : 0 ≤ cp) (hmp : 0 ≤ mp) (hr : runEstimate s sel cp mp = some r) :
    r.final_total_low ≤ r.final_total_high := by
  obtain ⟨hsq, hpt?, hfl?, hcl?, haddons, hq⟩ := hv
  obtain ⟨pt, hpt⟩ := Option.isSome_iff_exists.mp hpt?
  obtain ⟨fl, hfl⟩ := Option.isSome_iff_exists.mp hfl?
  obtain ⟨cl, hcl⟩ := Option.isSome_iff_exists.mp hcl?
  rw [runEstimate, hpt, hfl, hcl] at hr
  obtain rfl : computeEstimate sel.square_footage pt fl cl sel.selected_addons
      sel.addon_sqft_inputs cp mp = r := by simpa using hr
  have hptmem : pt ∈ s.project_types := List.mem_of_find?_eq_some hpt
  have hflmem : fl ∈ s.finish_levels := List.mem_of_find?_eq_some hfl
  have hclmem : cl ∈ s.structural_complexity := List.mem_of_find?_eq_some hcl
  exact computeEstimate_low_le_high _ pt fl cl _ _ cp mp
    (le_trans zero_le_one hsq) (hwf.1 pt hptmem).1
    (le_of_lt (hwf.2.1 fl hflmem)) (le_of_lt (hwf.2.2.1 cl hclmem))
    (fun a ha => hwf.2.2.2 a (haddons a ha).1)
    (fun p hp => le_trans zero_le_one (hq p hp)) hcp hmp

/-- A concrete reference store used to instantiate the theorems. -/
def exStore : Store where
  project_types := [exPT]
  finish_levels := [exFL]
  structural_complexity := [exCL]
  add_ons := [exIslandAddon, exTileAddon]

/-- A concrete valid selection against `exStore`: 40 sqft of kitchen
renovation with the tile add-on at quantity 50. -/
def exSelection : Selection where
  project_type_id := 1
  square_footage := 40
  finish_level_id := 1
  complexity_id := 1
  selected_addons := [exTileAddon]
  addon_sqft_inputs := [(2, 50)]

/-- Witness for the low-≤-high claim at the concrete store and
selection, with contingency 10% and markup 15%. -/
theorem valid_selection_final_low_le_high_witness :
    ((runEstimate exStore exSelection 10 15).getD default).final_total_low ≤
      ((runEstimate exStore exSelection 10 15).getD default).final_total_high :=
  valid_selection_final_low_le_high exStore exSelection 10 15
    ((runEstimate exStore exSelection 10 15).getD default)
    (by decide) (by decide) (by norm_num) (by norm_num) rfl

/-- A selection that is invalid per the validation contract: square
footage 0 (everything else as in `exSelection`). -/
def invalidSelection : Selection :=
  { exSelection with square_footage := 0 }

/-- Claim C2 counterexample: the results block performs no validation —
for a selection with square footage 0, which the contract calls
invalid, an `EstimateResult` is still produced. -/
theorem compute_no_validation_counterexample :
    invalidSelection.square_footage = 0 ∧
    ¬ validSelection exStore invalidSelection ∧
    (runEstimate exStore invalidSelection 10 15).isSome = true :=
  ⟨rfl, by decide, rfl⟩

/-- Claim C2 as amended: invalid selections cannot arise through the
form — every selection the widgets can produce (square footage and
quantities at least 1, ids drawn from the reference tables, add-ons
taken from the list filtered to the selected project type) satisfies
the validity contract. -/
theorem ui_reachable_implies_valid (s : Store) (sel : Selection)
    (h : uiReachable s sel) : validSelection s sel := by
  obtain ⟨⟨pt, hpt, hid⟩, hsq, ⟨fl, hfl, hfid⟩, ⟨cl, hcl, hcid⟩, haddons, hq⟩ := h
  refine ⟨hsq, ?_, ?_, ?_, ?_, hq⟩
  · simp only [findProjectType, List.find?_isSome]
    exact ⟨pt, hpt, by simp [hid]⟩
  · simp only [findFinishLevel, List.find?_isSome]
    exact ⟨fl, hfl, by simp [hfid]⟩
  · simp only [findComplexityLevel, List.find?_isSome]
    exact ⟨cl, hcl, by simp [hcid]⟩
  · intro a ha
    have := haddons a ha
    rw [List.mem_filter] at this
    exact ⟨this.1, by simpa using this.2⟩

/-- Witness for the amended validation claim at the concrete store and
selection. -/
theorem ui_reachable_implies_valid_witness :
    validSelection exStore exSelection :=
  ui_reachable_implies_valid exStore exSelection (by decide)

/-- Config rows missing the required key
`default_contingency_percent` (only `currency` and the markup key are
present). -/
def exIncompleteCfg : List (String × String) :=
  [("default_contractor_markup_percent", "15"), ("currency", "CAD")]

/-- A file system in which all five CSV files parse but the config
table lacks a required key. -/
def exIncompleteFiles : DataFiles where
  project_types := some [exPT]
  finish_levels := some [exFL]
  structural_complexity := some [exCL]
  add_ons := some [exIslandAddon, exTileAddon]
  config := some exIncompleteCfg

/-- Claim C5 counterexample: `load_data` succeeds even though the
required configuration key `default_contingency_percent` is absent —
no configuration key is checked at load time. -/
theorem load_data_missing_key_counterexample :
    configDict exIncompleteCfg "default_contingency_percent" = none ∧
    (load_data exIncompleteFiles).isSome = true :=
  ⟨rfl, rfl⟩

/-- Claim C5 as amended: loading fails (takes the error path) exactly
when one of the five CSV files is missing or malformed — required
configuration keys are not checked at load time — and when every file
parses it returns all four tables plus the config dictionary. -/
theorem load_data_spec (fs : DataFiles) :
    ((load_data fs).isSome ↔
      fs.project_types.isSome ∧ fs.finish_levels.isSome ∧
      fs.structural_complexity.isSome ∧ fs.add_ons.isSome ∧ fs.config.isSome) ∧
    (∀ (pt : List ProjectType) (fl : List FinishLevel) (sc : List ComplexityLevel)
        (ao : List AddOn) (cfg : List (String × String)),
      load_data ⟨some pt, some fl, some sc, some ao, some cfg⟩ =
        some (pt, fl, sc, ao, configDict cfg)) := by
  constructor
  · obtain ⟨pt?, fl?, sc?, ao?, cfg?⟩ := fs
    cases pt? <;> cases fl? <;> cases sc? <;> cases ao? <;> cases cfg? <;>
      simp [load_data]
  · intro pt fl sc ao cfg
    rfl

end Olive
